import Mathlib

/-!
Shallow embedding of the `eventful` crate (broker-agnostic event
publish/consume layer over NSQ and SQS), from `src/err.rs`, `src/sqs.rs`
and `src/nsq.rs`.  Wire bodies are modelled as a JSON value type; the
external serde derive is modelled as an encode/decode pair per payload
type; the external broker transports (AWS SQS client, NSQ daemons, the
process environment) are modelled as explicit inputs so every function
is pure and executable.  Panics (`unwrap`) are modelled as explicit
error/panic outcomes.
-/

namespace Eventful

/-- Wire-format JSON value: payload bodies are JSON objects
(spec §6: one UTF-8 JSON object per message, field names equal to the
payload's declared field names). -/
inductive Json where
  | num (n : Int)
  | str (s : String)
  | obj (fields : List (String × Json))

/-- Field lookup in a JSON object, as serde does when deserializing a
struct field by name. -/
def jsonLookup : List (String × Json) → String → Option Json
  | [], _ => none
  | (k, v) :: rest, key => if k = key then some v else jsonLookup rest key

/-- Model of the serde `Serialize + DeserializeOwned` bound for one
payload type: `encode` is `serde_json::to_string` (which can fail with a
`serde_json::Error`, modelled as `String`), `decode` is
`serde_json::from_str`/`from_slice`. -/
structure Serde (T : Type) where
  encode : T → Except String Json
  decode : Json → Except String T

/-- `src/err.rs`: the unified error enum `EventfulError`.  The payloads
of `Hyperactive` and `SerdeJSON` (foreign error types) are modelled as
their message strings; `SQS(String)` holds the `format!("{:?}", err)`
rendering of the SDK error, as in the `From<SdkError<T>>` impl. -/
inductive EventfulError where
  | NSQ
  | SQS (s : String)
  | Hyperactive (e : String)
  | SerdeJSON (e : String)
deriving DecidableEq, Repr

/-- `src/err.rs`: `impl From<SdkError<T>> for EventfulError`, which
wraps the debug rendering of the SDK error in the `SQS` variant. -/
def EventfulError.fromSdkError (e : String) : EventfulError :=
  EventfulError.SQS e

/-- `src/err.rs`: `impl From<serde_json::Error> for EventfulError`. -/
def EventfulError.fromSerdeJson (e : String) : EventfulError :=
  EventfulError.SerdeJSON e

/-- `aws_sdk_sqs::model::Message`, restricted to the fields `src/sqs.rs`
reads: every field is `Option`-typed in the SDK. -/
structure SqsMessage where
  message_id : Option String
  receipt_handle : Option String
  body : Option Json

/-- The send-message request assembled by `ClientSQS::publish` via the
SDK builder: queue URL, body, and optional `message_group_id`. -/
structure SendMessageRequest where
  queue_url : String
  message_body : Json
  message_group_id : Option String

/-- `SendMessageOutput`, restricted to the `message_id` field read by
`ClientSQS::publish`; the SDK types it `Option<String>`. -/
structure SendMessageOutput where
  message_id : Option String

/-- Result of running a fallible operation that may also panic
(`unwrap` on `None`): panic is kept distinct from a typed error. -/
inductive Outcome (α : Type) where
  | panicked (msg : String)
  | err (e : EventfulError)
  | ok (a : α)

/-- Modelled from the spec: the broker-B `delete(queue_url,
receipt_handle)` operation (spec §6) removes from the queue the message
carrying that receipt handle.  The queue itself lives outside this
crate; it is modelled as the list of messages currently present. -/
def deleteMessage (queue : List SqsMessage) (rh : String) : List SqsMessage :=
  queue.filter (fun m => decide (m.receipt_handle ≠ some rh))

/-- The `for message in &messages` loop body of
`ClientSQS::poll_messages` when `delete_on_receipt` is true: messages
whose `receipt_handle` is `None` are skipped (`continue`); for the rest
a delete call is issued.  Returns the queue after the deletes together
with the receipt handles for which a delete call was issued, in order. -/
def deleteLoop (queue : List SqsMessage) : List SqsMessage → List SqsMessage × List String
  | [] => (queue, [])
  | m :: rest =>
    match m.receipt_handle with
    | some rh =>
      ((deleteLoop (deleteMessage queue rh) rest).1,
        rh :: (deleteLoop (deleteMessage queue rh) rest).2)
    | none => deleteLoop queue rest

/-- `ClientSQS::poll_messages`: the broker's `receive_message` returns
`messages : Option<Vec<Message>>` (`batch` here, chosen by the external
broker from the queue), defaulted to `[]` by `unwrap_or_default`; when
`delete_on_receipt` is set, each returned message with a receipt handle
is deleted before the call returns.  Result: (returned messages, queue
after the call, receipt handles deleted). -/
def poll_messages (queue : List SqsMessage) (batch : Option (List SqsMessage))
    (delete_on_receipt : Bool) : List SqsMessage × List SqsMessage × List String :=
  let messages := batch.getD []
  if delete_on_receipt then
    (messages, deleteLoop queue messages)
  else
    (messages, queue, [])

/-- The body-decoding step of `ClientSQS::poll` for one message:
`message.body.unwrap_or_default()` (an absent body defaults to the empty
string, which is not well-formed JSON and fails in serde with an
end-of-input error) followed by `serde_json::from_str(body)?`, whose
error converts into `EventfulError::SerdeJSON` via `From`. -/
def decodeBody {T : Type} (S : Serde T) (body : Option Json) : Except EventfulError T :=
  match body with
  | none => Except.error (EventfulError.fromSerdeJson "EOF while parsing a value")
  | some j =>
    match S.decode j with
    | Except.ok t => Except.ok t
    | Except.error e => Except.error (EventfulError.fromSerdeJson e)

/-- The `for message in messages` loop of `ClientSQS::poll`: bodies are
decoded in order and the `?` operator aborts the whole call at the first
decode failure, discarding the messages (and their receipt handles) and
any payloads already decoded. -/
def decodeAll {T : Type} (S : Serde T) : List SqsMessage → Except EventfulError (List T)
  | [] => Except.ok []
  | m :: rest =>
    match decodeBody S m.body with
    | Except.error e => Except.error e
    | Except.ok t =>
      match decodeAll S rest with
      | Except.error e => Except.error e
      | Except.ok ts => Except.ok (t :: ts)

/-- `ClientSQS::poll`: `poll_messages` (which performs any
delete-on-receipt deletes first) followed by per-batch decoding.
Returns the call's result together with the queue after the call. -/
def poll {T : Type} (S : Serde T) (queue : List SqsMessage)
    (batch : Option (List SqsMessage)) (delete_on_receipt : Bool) :
    Except EventfulError (List T) × List SqsMessage :=
  (decodeAll S (poll_messages queue batch delete_on_receipt).1,
    (poll_messages queue batch delete_on_receipt).2.1)

/-- The `match event.group_id()` in `ClientSQS::publish` that assembles
the send request: when `group_id()` is `Some(_group_id)`, the builder is
given the literal `"abc"` as `message_group_id` (the bound value is
unused); when `None`, no group id is attached. -/
def sendRequest (queue_url : String) (gid : Option String) (body : Json) :
    SendMessageRequest :=
  match gid with
  | some _group_id =>
    { queue_url := queue_url, message_body := body, message_group_id := some "abc" }
  | none =>
    { queue_url := queue_url, message_body := body, message_group_id := none }

/-- `ClientSQS::publish`: encode the event (`serde_json::to_string(event)?`,
serde errors converting to `SerdeJSON`), assemble the send request,
issue it to the broker (`broker` models the external `send().await`,
SDK errors converting to `SQS`), then `output.message_id.unwrap()` —
which panics when the response carries no message id. -/
def publish {T : Type} (S : Serde T) (queue_url : String) (group_id : T → Option String)
    (broker : SendMessageRequest → Except String SendMessageOutput) (event : T) :
    Outcome String :=
  match S.encode event with
  | Except.error e => Outcome.err (EventfulError.fromSerdeJson e)
  | Except.ok body =>
    let send_msg := sendRequest queue_url (group_id event) body
    match broker send_msg with
    | Except.error e => Outcome.err (EventfulError.fromSdkError e)
    | Except.ok output =>
      match output.message_id with
      | some message_id => Outcome.ok message_id
      | none => Outcome.panicked "called Option::unwrap on a None value"

/-- Rust's `str::split(",")` over the characters of the input, as used
by `rand_nsqd_url`: splitting always yields at least one piece (the
empty string splits to one empty piece). -/
def splitComma : List Char → List (List Char)
  | [] => [[]]
  | c :: rest =>
    if c = ',' then [] :: splitComma rest
    else
      match splitComma rest with
      | [] => [[c]]
      | p :: ps => (c :: p) :: ps

/-- `rand::seq::SliceRandom::choose`: `None` on an empty slice,
otherwise the element at a uniformly random index; the random draw is
modelled by the extra input `j`, reduced modulo the length. -/
def sliceChoose {α : Type} (l : List α) (j : Nat) : Option α :=
  match l with
  | [] => none
  | x :: xs => (x :: xs).get? (j % (x :: xs).length)

/-- `rand_nsqd_url` (`src/nsq.rs`): split the comma-separated list and
pick one element at random; the source `unwrap`s the choice, so a
`None` choice would panic — modelled as the `error` case. -/
def rand_nsqd_url (urls : String) (j : Nat) : Except String String :=
  match sliceChoose (splitComma urls.data) j with
  | some cs => Except.ok (String.mk cs)
  | none => Except.error "called Option::unwrap on a None value"

/-- The process environment, an external input: a partial map from
variable names to values. -/
def Env : Type := String → Option String

/-- `std::env::var(key)` followed by `unwrap`: a missing variable makes
the source panic, modelled as the `error` case. -/
def envVarUnwrap (env : Env) (key : String) : Except String String :=
  match env key with
  | some v => Except.ok v
  | none => Except.error ("environment variable not found: " ++ key)

/-- The `format!("http://{}:{}", host, port)` step of `rand_nsq_url`. -/
def formatHostPort (h p : String) : Except String String :=
  Except.ok ("http://" ++ h ++ ":" ++ p)

/-- One arm of `rand_nsq_url`: read the daemon's host and http-port
variables (each `unwrap`ped, so the first missing one panics) and format
the publish URL. -/
def nsqUrlFromEnv (env : Env) (var_host var_http_port : String) : Except String String :=
  match envVarUnwrap env var_host with
  | Except.error e => Except.error e
  | Except.ok h =>
    match envVarUnwrap env var_http_port with
    | Except.error e => Except.error e
    | Except.ok p => formatHostPort h p

/-- `rand_nsq_url` (`src/nsq.rs`): draw `i` with `gen_range(1..4)` (the
draw is the extra input `i`, with the source guaranteeing `1 ≤ i < 4`)
and build `http://HOST:PORT` from the `NSQi_HOST` / `NSQi_HTTP_PORT`
environment variables of the drawn daemon, each read with `unwrap`; the
source `match` sends `1` to daemon 1, `2` to daemon 2 and everything
else to daemon 3. -/
def rand_nsq_url (env : Env) (i : Nat) : Except String String :=
  if i = 1 then nsqUrlFromEnv env "NSQ1_HOST" "NSQ1_HTTP_PORT"
  else if i = 2 then nsqUrlFromEnv env "NSQ2_HOST" "NSQ2_HTTP_PORT"
  else nsqUrlFromEnv env "NSQ3_HOST" "NSQ3_HTTP_PORT"

/-- `Daemon` (`src/nsq.rs`): host data for one nsqd daemon.  Ports are
`u16` in the source; they are modelled as `Nat` with the range enforced
where the source parses them. -/
structure Daemon where
  host : String
  http_port : Nat
  tcp_port : Nat
  pub_url : String
  cons_address : String
deriving DecidableEq

/-- `Daemon::new`: derives `pub_url = http://host:http_port` and
`cons_address = host:tcp_port`. -/
def Daemon.new (host : String) (http_port tcp_port : Nat) : Daemon :=
  { host := host
    http_port := http_port
    tcp_port := tcp_port
    pub_url := "http://" ++ host ++ ":" ++ toString http_port
    cons_address := host ++ ":" ++ toString tcp_port }

/-- Rust's `str::parse::<u16>` restricted to the plain-digits form:
`none` on an empty string, a non-digit character, or a value out of the
`u16` range (the source `unwrap`s the result, so `none` means panic). -/
def parseU16 (s : String) : Option Nat :=
  if s.data ≠ [] ∧ s.data.all Char.isDigit then
    let n := s.data.foldl (fun acc c => acc * 10 + (c.toNat - 48)) 0
    if n < 65536 then some n else none
  else none

/-- `Daemon::new_from_env`: each environment variable is read with
`unwrap` and each port is parsed with `unwrap`; any missing or
malformed input makes the source panic, modelled as the `error` case. -/
def Daemon.new_from_env (env : Env) (var_host var_http_port var_tcp_port : String) :
    Except String Daemon :=
  match envVarUnwrap env var_host with
  | Except.error e => Except.error e
  | Except.ok host =>
    match envVarUnwrap env var_http_port with
    | Except.error e => Except.error e
    | Except.ok hp =>
      match parseU16 hp with
      | none => Except.error "invalid digit found in string"
      | some http_port =>
        match envVarUnwrap env var_tcp_port with
        | Except.error e => Except.error e
        | Except.ok tp =>
          match parseU16 tp with
          | none => Except.error "invalid digit found in string"
          | some tcp_port => Except.ok (Daemon.new host http_port tcp_port)

/-- `FleetNSQ` (`src/nsq.rs`): a fleet of exactly three daemons. -/
structure FleetNSQ where
  d1 : Daemon
  d2 : Daemon
  d3 : Daemon

/-- `FleetNSQ::rand`: draw `i` with `gen_range(1..4)` (the draw is the
extra input `i`, uniform over `{1, 2, 3}`) and select the matching
member; the `match` sends `1` to `d1`, `2` to `d2`, everything else to
`d3`. -/
def FleetNSQ.rand (f : FleetNSQ) (i : Nat) : Daemon :=
  if i = 1 then f.d1
  else if i = 2 then f.d2
  else f.d3

/-- `FleetNSQ::as_refs`: the three members as a list. -/
def FleetNSQ.as_refs (f : FleetNSQ) : List Daemon :=
  [f.d1, f.d2, f.d3]

/-- The `NSQConsumerConfig` assembled by `ChannelConsumer::consumer`:
topic, channel, `max_in_flight`, and source addresses. -/
structure NSQConsumerConfig where
  topic : String
  channel : String
  max_in_flight : Nat
  sources : List String

/-- `ChannelConsumer::config_source`: the consume addresses of the given
daemons. -/
def config_source (daemons : List Daemon) : List String :=
  daemons.map (fun d => d.cons_address)

/-- `ChannelConsumer::consumer`: builds the consumer config from the
event type's topic and the implementor's channel, with
`.set_max_in_flight(15)` hard-coded in the builder chain. -/
def consumer (topic channel : String) (daemons : List Daemon) : NSQConsumerConfig :=
  { topic := topic
    channel := channel
    max_in_flight := 15
    sources := config_source daemons }

/-- `tokio_nsq::NSQMessage`, restricted to the `body` bytes read by
`deserialize_event`; the message also carries its broker finish handle,
which `deserialize_event` never touches (it borrows the message). -/
structure NSQMessage where
  body : Json

/-- `ChannelConsumer::deserialize_event`:
`serde_json::from_slice(&message.body)?`, a pure read of the borrowed
message's body; the error side is the crate's boxed `GenericError`,
modelled as the message string. -/
def deserialize_event {T : Type} (S : Serde T) (message : NSQMessage) :
    Except String T :=
  S.decode message.body

/-- `post_json` (`src/nsq.rs`): the HTTP publish request to
`host/pub?topic=topic` whose body is the JSON-serialized event. -/
structure HttpPost where
  url : String
  body : Json

/-- `post_json`: builds the publish URL and posts the encoded body
(the serialization inside the HTTP client is the same serde encoding). -/
def post_json (host topic : String) (body : Json) : HttpPost :=
  { url := host ++ "/pub?topic=" ++ topic, body := body }

/-- `EventNSQ::publish_to_url` for an event value: encode the event and
post it to `host/pub?topic=Self::topic()`. -/
def publish_to_url {T : Type} (S : Serde T) (topic : String) (host : String)
    (event : T) : Except String HttpPost :=
  match S.encode event with
  | Except.error e => Except.error e
  | Except.ok body => Except.ok (post_json host topic body)

/-- The payload type of the crate's doc examples and the spec's §8
scenario: `struct UserClickedSomething { user_id: i32, clicked_on: String }`. -/
structure UserClickedSomething where
  user_id : Int
  clicked_on : String
deriving DecidableEq

/-- The serde derive for `UserClickedSomething`: a JSON object with the
declared field names, encoded field by field. -/
def userToJson (u : UserClickedSomething) : Json :=
  Json.obj [("user_id", Json.num u.user_id), ("clicked_on", Json.str u.clicked_on)]

/-- The serde derive's deserializer for `UserClickedSomething`: looks up
both declared fields and checks their shapes. -/
def userFromJson : Json → Except String UserClickedSomething
  | Json.obj fields =>
    match jsonLookup fields "user_id", jsonLookup fields "clicked_on" with
    | some (Json.num n), some (Json.str s) =>
      Except.ok { user_id := n, clicked_on := s }
    | _, _ => Except.error "missing or mismatched field"
  | _ => Except.error "invalid type: expected struct UserClickedSomething"

/-- The `Serialize + DeserializeOwned` instance for
`UserClickedSomething` (derived serde impls never fail to serialize a
plain struct). -/
def userSerde : Serde UserClickedSomething :=
  { encode := fun u => Except.ok (userToJson u)
    decode := userFromJson }

/-! Helper lemmas shared by the claim theorems. -/

theorem mem_of_mem_deleteMessage {x : SqsMessage} {q : List SqsMessage} {rh : String}
    (h : x ∈ deleteMessage q rh) : x ∈ q :=
  (List.mem_filter.mp h).1

theorem not_mem_deleteMessage_self {m : SqsMessage} {q : List SqsMessage} {rh : String}
    (hm : m.receipt_handle = some rh) : m ∉ deleteMessage q rh := by
  intro h
  have hc := (List.mem_filter.mp h).2
  rw [hm] at hc
  simp at hc

theorem mem_deleteLoop_fst {x : SqsMessage} :
    ∀ (msgs q : List SqsMessage), x ∈ (deleteLoop q msgs).1 → x ∈ q := by
  intro msgs
  induction msgs with
  | nil => intro q h; simpa [deleteLoop] using h
  | cons m rest ih =>
    intro q h
    cases hm : m.receipt_handle with
    | some rh =>
      simp only [deleteLoop, hm] at h
      exact mem_of_mem_deleteMessage (ih _ h)
    | none =>
      simp only [deleteLoop, hm] at h
      exact ih q h

theorem deleteLoop_not_mem {m : SqsMessage} {rh : String}
    (hr : m.receipt_handle = some rh) :
    ∀ (msgs q : List SqsMessage), m ∈ msgs → m ∉ (deleteLoop q msgs).1 := by
  intro msgs
  induction msgs with
  | nil => intro q hmem; cases hmem
  | cons m0 rest ih =>
    intro q hmem hx
    rcases List.mem_cons.mp hmem with h0 | hrest
    · subst h0
      simp only [deleteLoop, hr] at hx
      exact not_mem_deleteMessage_self hr (mem_deleteLoop_fst rest _ hx)
    · cases h0 : m0.receipt_handle with
      | some rh0 =>
        simp only [deleteLoop, h0] at hx
        exact ih _ hrest hx
      | none =>
        simp only [deleteLoop, h0] at hx
        exact ih q hrest hx

theorem deleteLoop_mem_snd {m : SqsMessage} {rh : String}
    (hr : m.receipt_handle = some rh) :
    ∀ (msgs q : List SqsMessage), m ∈ msgs → rh ∈ (deleteLoop q msgs).2 := by
  intro msgs
  induction msgs with
  | nil => intro q hmem; cases hmem
  | cons m0 rest ih =>
    intro q hmem
    rcases List.mem_cons.mp hmem with h0 | hrest
    · subst h0
      simp [deleteLoop, hr]
    · cases h0 : m0.receipt_handle with
      | some rh0 =>
        simp only [deleteLoop, h0]
        exact List.mem_cons_of_mem _ (ih _ hrest)
      | none =>
        simp only [deleteLoop, h0]
        exact ih q hrest

theorem decodeAll_error_of_exists {T : Type} (S : Serde T) :
    ∀ msgs : List SqsMessage,
    (∃ m ∈ msgs, ∃ e, decodeBody S m.body = Except.error e) →
    ∃ e, decodeAll S msgs = Except.error e := by
  intro msgs
  induction msgs with
  | nil => rintro ⟨m, hm, _⟩; cases hm
  | cons m0 rest ih =>
    rintro ⟨m, hm, e, he⟩
    cases hd : decodeBody S m0.body with
    | error e0 => exact ⟨e0, by simp [decodeAll, hd]⟩
    | ok t0 =>
      rcases List.mem_cons.mp hm with h0 | hrest
      · subst h0
        rw [hd] at he
        exact Except.noConfusion he
      · obtain ⟨e1, he1⟩ := ih ⟨m, hrest, e, he⟩
        exact ⟨e1, by simp [decodeAll, hd, he1]⟩

theorem splitComma_ne_nil : ∀ l : List Char, splitComma l ≠ [] := by
  intro l
  induction l with
  | nil => simp [splitComma]
  | cons c rest ih =>
    by_cases hc : c = ','
    · simp [splitComma, hc]
    · cases h : splitComma rest with
      | nil => simp [splitComma, hc, h]
      | cons p ps => simp [splitComma, hc, h]

theorem sliceChoose_isSome {α : Type} (l : List α) (j : Nat) (h : l ≠ []) :
    ∃ x, sliceChoose l j = some x := by
  cases l with
  | nil => exact absurd rfl h
  | cons a as =>
    have hlt : j % (a :: as).length < (a :: as).length :=
      Nat.mod_lt _ (by simp)
    exact ⟨(a :: as).get ⟨j % (a :: as).length, hlt⟩,
      by simp [sliceChoose, List.get?_eq_get hlt]⟩

theorem sliceChoose_mem {α : Type} {l : List α} {j : Nat} {x : α}
    (h : sliceChoose l j = some x) : x ∈ l := by
  cases l with
  | nil => exact Option.noConfusion h
  | cons a as =>
    simp only [sliceChoose] at h
    exact List.get?_mem h

/-! The claims. -/

/-- C1: the claim says a broker-B publish of an event whose `group_id()`
is `Some(k)` passes exactly `k`, unmodified, as the message group id.
The code instead hard-codes the literal `"abc"`: with `group_id() =
Some("g1")` the assembled request (and the id the broker actually sees,
exposed here by a broker echoing the received group id back as the
message id) carries `"abc"`, not `"g1"`.  The `None` half of the claim
does hold: no group id is attached. -/
theorem c1_group_id_hardcoded :
    (sendRequest "https://sqs.aws/queue" (some "g1") (Json.str "body")).message_group_id
      = some "abc"
    ∧ (some "abc" : Option String) ≠ some "g1"
    ∧ publish userSerde "https://sqs.aws/queue" (fun _ => some "g1")
        (fun req => Except.ok { message_id := req.message_group_id })
        { user_id := 5, clicked_on := "x" } = Outcome.ok "abc"
    ∧ (sendRequest "https://sqs.aws/queue" none (Json.str "body")).message_group_id = none :=
  ⟨rfl, by decide, rfl, rfl⟩

/-- C3 counterexample: with every recognized variable unset, publish-host
resolution does not return the default `http://127.0.0.1:4151`; both
`rand_nsq_url` and `Daemon::new_from_env` panic (`unwrap` on a missing
variable, modelled as the `error` outcome). -/
theorem c3_counterexample :
    rand_nsq_url (fun _ => none) 1
      = Except.error ("environment variable not found: " ++ "NSQ1_HOST")
    ∧ rand_nsq_url (fun _ => none) 1 ≠ Except.ok "http://127.0.0.1:4151"
    ∧ Daemon.new_from_env (fun _ => none) "NSQ1_HOST" "NSQ1_HTTP_PORT" "NSQ1_TCP_PORT"
      = Except.error ("environment variable not found: " ++ "NSQ1_HOST") := by
  refine ⟨rfl, ?_, rfl⟩
  intro h
  have h2 : (Except.error ("environment variable not found: " ++ "NSQ1_HOST") :
      Except String String) = Except.ok "http://127.0.0.1:4151" := h
  exact Except.noConfusion h2

/-- C3 as amended: when the recognized publish-host variables are unset
(or a port is malformed), environment-driven resolution panics — every
variable is read with `unwrap` — rather than falling back to any
default; there is no fallback value in the code. -/
theorem c3_env_resolution_panics (env : Env) (i : Nat)
    (h1 : env "NSQ1_HOST" = none) (h2 : env "NSQ2_HOST" = none)
    (h3 : env "NSQ3_HOST" = none) :
    (∃ e, rand_nsq_url env i = Except.error e)
    ∧ (∀ vh vhp vtp, env vh = none →
        ∃ e, Daemon.new_from_env env vh vhp vtp = Except.error e) := by
  constructor
  · by_cases hi1 : i = 1
    · exact ⟨"environment variable not found: " ++ "NSQ1_HOST",
        by simp [rand_nsq_url, hi1, nsqUrlFromEnv, envVarUnwrap, h1]⟩
    · by_cases hi2 : i = 2
      · exact ⟨"environment variable not found: " ++ "NSQ2_HOST",
          by simp [rand_nsq_url, hi1, hi2, nsqUrlFromEnv, envVarUnwrap, h2]⟩
      · exact ⟨"environment variable not found: " ++ "NSQ3_HOST",
          by simp [rand_nsq_url, hi1, hi2, nsqUrlFromEnv, envVarUnwrap, h3]⟩
  · intro vh vhp vtp hv
    exact ⟨"environment variable not found: " ++ vh,
      by simp [Daemon.new_from_env, envVarUnwrap, hv]⟩

/-- Witness for the amended C3 at the empty environment. -/
theorem c3_env_resolution_panics_witness :
    (∃ e, rand_nsq_url (fun _ => none) 7 = Except.error e)
    ∧ (∀ vh vhp vtp, (fun _ => none : Env) vh = none →
        ∃ e, Daemon.new_from_env (fun _ => none) vh vhp vtp = Except.error e) :=
  c3_env_resolution_panics (fun _ => none) 7 rfl rfl rfl

/-- C4 counterexample: the consumer built by the default
`ChannelConsumer::consumer` has `max_in_flight = 15`, not the claimed
default of 1, and the building operation takes no `max_in_flight`
argument at all (`15` is hard-coded in the builder chain). -/
theorem c4_counterexample :
    (consumer "click" "some_channel" [Daemon.new "127.0.0.1" 4151 4150]).max_in_flight = 15
    ∧ (consumer "click" "some_channel" [Daemon.new "127.0.0.1" 4151 4150]).max_in_flight ≠ 1 :=
  ⟨rfl, by decide⟩

/-- C4 as amended: for every topic, channel and daemon list, the
consumer-building operation produces `max_in_flight = 15`; the value is
hard-coded, not caller-settable, and the default is 15, not 1. -/
theorem c4_max_in_flight_always_15 (topic channel : String) (daemons : List Daemon) :
    (consumer topic channel daemons).max_in_flight = 15 :=
  rfl

/-- C6: the claim says a broker-B publish never panics on a recoverable
condition such as the broker response lacking a message identifier.  The
success and failure paths do behave as claimed (broker-assigned id on
success, typed `SQS`-wrapped error on transport failure), but a
successful send whose response has `message_id = None` hits
`output.message_id.unwrap()` and panics instead of returning a typed
error (the intended `ok_or(...)` handling survives only as a comment in
the source). -/
theorem c6_publish_unwrap_panics :
    publish userSerde "https://sqs.aws/queue" (fun _ => none)
        (fun _ => Except.ok { message_id := none })
        { user_id := 5, clicked_on := "x" }
      = Outcome.panicked "called Option::unwrap on a None value"
    ∧ publish userSerde "https://sqs.aws/queue" (fun _ => none)
        (fun _ => Except.ok { message_id := some "mid-1" })
        { user_id := 5, clicked_on := "x" }
      = Outcome.ok "mid-1"
    ∧ publish userSerde "https://sqs.aws/queue" (fun _ => none)
        (fun _ => Except.error "ServiceError")
        { user_id := 5, clicked_on := "x" }
      = Outcome.err (EventfulError.SQS "ServiceError") :=
  ⟨rfl, rfl, rfl⟩

/-- C2: round-trip identity.  For a payload whose serde binding encodes
it to body `b` and decodes `b` back (the contract of derived serde
impls, proved outright for the crate's example payload type in the last
conjunct), the publish-side body reaches the wire unmodified and both
consume paths recover the payload: the broker-B typed poll of a message
carrying `b` yields exactly the payload, and the broker-A
`deserialize_event` of an envelope carrying `b` yields it too. -/
theorem c2_roundtrip {T : Type} (S : Serde T) (t : T) (b : Json)
    (hEnc : S.encode t = Except.ok b) (hDec : S.decode b = Except.ok t) :
    (∀ queue_url g, (sendRequest queue_url g b).message_body = b)
    ∧ decodeAll S [{ message_id := some "m1", receipt_handle := some "r1", body := some b }]
      = Except.ok [t]
    ∧ (∀ host topic, publish_to_url S topic host t = Except.ok (post_json host topic b))
    ∧ deserialize_event S { body := b } = Except.ok t
    ∧ (∀ u : UserClickedSomething, userSerde.decode (userToJson u) = Except.ok u) := by
  refine ⟨?_, ?_, ?_, ?_, ?_⟩
  · intro queue_url g
    cases g <;> rfl
  · simp [decodeAll, decodeBody, hDec]
  · intro host topic
    simp [publish_to_url, hEnc]
  · simp [deserialize_event, hDec]
  · intro u
    cases u
    rfl

/-- Witness for C2 at the doc-example payload `{user_id: 5, clicked_on:
"some_button"}`. -/
theorem c2_roundtrip_witness :
    decodeAll userSerde
        [{ message_id := some "m1",
           receipt_handle := some "r1",
           body := some (userToJson { user_id := 5, clicked_on := "some_button" }) }]
      = Except.ok [{ user_id := 5, clicked_on := "some_button" }]
    ∧ deserialize_event userSerde
        { body := userToJson { user_id := 5, clicked_on := "some_button" } }
      = Except.ok { user_id := 5, clicked_on := "some_button" } :=
  ⟨(c2_roundtrip userSerde { user_id := 5, clicked_on := "some_button" } _ rfl rfl).2.1,
    (c2_roundtrip userSerde { user_id := 5, clicked_on := "some_button" } _ rfl rfl).2.2.2.1⟩

/-- C5: with `delete_on_receipt = true`, every returned message that
carries a receipt handle (the broker supplies one on every real
receive; handle-less messages are skipped by the `continue`) has its
delete issued before the call returns and is gone from the queue; with
`delete_on_receipt = false` no delete is issued and the queue is left
exactly as it was, so every returned message remains redeliverable
until the caller deletes it. -/
theorem c5_delete_on_receipt_semantics (queue : List SqsMessage)
    (batch : Option (List SqsMessage)) :
    (∀ m ∈ batch.getD [], ∀ rh, m.receipt_handle = some rh →
        rh ∈ (poll_messages queue batch true).2.2
        ∧ m ∉ (poll_messages queue batch true).2.1)
    ∧ (poll_messages queue batch false).2.1 = queue
    ∧ (poll_messages queue batch false).2.2 = [] := by
  refine ⟨?_, rfl, rfl⟩
  intro m hm rh hr
  constructor
  · simpa [poll_messages] using deleteLoop_mem_snd hr _ queue hm
  · simpa [poll_messages] using deleteLoop_not_mem hr _ queue hm

/-- Witness for C5: a one-message queue polled with
`delete_on_receipt = true` issues the delete for handle `"r1"` and the
message is no longer present. -/
theorem c5_delete_on_receipt_witness :
    "r1" ∈ (poll_messages
        [{ message_id := some "m1", receipt_handle := some "r1", body := none }]
        (some [{ message_id := some "m1", receipt_handle := some "r1", body := none }])
        true).2.2
    ∧ ({ message_id := some "m1", receipt_handle := some "r1", body := none } : SqsMessage)
        ∉ (poll_messages
        [{ message_id := some "m1", receipt_handle := some "r1", body := none }]
        (some [{ message_id := some "m1", receipt_handle := some "r1", body := none }])
        true).2.1 :=
  (c5_delete_on_receipt_semantics
      [{ message_id := some "m1", receipt_handle := some "r1", body := none }]
      (some [{ message_id := some "m1", receipt_handle := some "r1", body := none }])).1
    _ (by simp) "r1" rfl

/-- C7 counterexample: a broker-B typed poll of a batch whose first
message has an undecodable body and whose second decodes fine returns
only a single error — the decodable payload is not surfaced and no
receipt handle survives in the result, so the failure is not per-message
for this path (contrast `deserialize_event`, which borrows the envelope
per message). -/
theorem c7_counterexample :
    (poll userSerde
        [{ message_id := some "m1", receipt_handle := some "r1", body := some (Json.num 0) },
          { message_id := some "m2", receipt_handle := some "r2",
            body := some (userToJson { user_id := 5, clicked_on := "x" }) }]
        (some [{ message_id := some "m1",
                 receipt_handle := some "r1",
                 body := some (Json.num 0) },
               { message_id := some "m2",
                 receipt_handle := some "r2",
                 body := some (userToJson { user_id := 5, clicked_on := "x" }) }])
        false).1
      = Except.error
          (EventfulError.SerdeJSON "invalid type: expected struct UserClickedSomething") :=
  rfl

/-- C7 as amended: in the broker-B typed poll path a decode failure
aborts the whole call — whenever any message of the batch fails to
decode, `poll` returns a single error, discarding the other messages'
payloads and never exposing any receipt handle; the queue itself is
untouched when `delete_on_receipt = false`, so the batch is recoverable
only through broker redelivery.  The broker-A path behaves as the
original claim says: `deserialize_event` is a pure per-message read of
the borrowed envelope's body. -/
theorem c7_poll_decode_failure_aborts_batch {T : Type} (S : Serde T)
    (queue : List SqsMessage) (batch : Option (List SqsMessage))
    (h : ∃ m ∈ batch.getD [], ∃ e, decodeBody S m.body = Except.error e) :
    (∃ e, (poll S queue batch false).1 = Except.error e)
    ∧ (poll S queue batch false).2 = queue
    ∧ (∀ msg : NSQMessage, deserialize_event S msg = S.decode msg.body) := by
  refine ⟨?_, rfl, fun _ => rfl⟩
  obtain ⟨e, he⟩ := decodeAll_error_of_exists S _ h
  exact ⟨e, by simp [poll, poll_messages, he]⟩

/-- Witness for the amended C7 at a concrete one-message batch with an
undecodable body. -/
theorem c7_poll_decode_failure_witness :
    (∃ e, (poll userSerde
        [{ message_id := some "m1", receipt_handle := some "r1", body := some (Json.num 0) }]
        (some [{ message_id := some "m1",
                 receipt_handle := some "r1",
                 body := some (Json.num 0) }])
        false).1 = Except.error e)
    ∧ (poll userSerde
        [{ message_id := some "m1", receipt_handle := some "r1", body := some (Json.num 0) }]
        (some [{ message_id := some "m1",
                 receipt_handle := some "r1",
                 body := some (Json.num 0) }])
        false).2
      = [{ message_id := some "m1", receipt_handle := some "r1", body := some (Json.num 0) }]
    ∧ (∀ msg : NSQMessage, deserialize_event userSerde msg = userSerde.decode msg.body) :=
  c7_poll_decode_failure_aborts_batch userSerde
    [{ message_id := some "m1", receipt_handle := some "r1", body := some (Json.num 0) }]
    (some [{ message_id := some "m1",
             receipt_handle := some "r1",
             body := some (Json.num 0) }])
    ⟨{ message_id := some "m1", receipt_handle := some "r1", body := some (Json.num 0) },
      by simp,
      EventfulError.SerdeJSON "invalid type: expected struct UserClickedSomething", rfl⟩

/-- C8: `FleetNSQ::rand` always returns a member of the fleet (for every
drawn value, including those outside the contract of `gen_range(1..4)`),
and the three equally likely draws `1`, `2`, `3` select the three
members bijectively, which is uniformity of the member choice; likewise
`rand_nsqd_url` only ever returns one of the pieces of its
comma-separated input. -/
theorem c8_random_selection (f : FleetNSQ) (i : Nat) :
    f.rand i ∈ f.as_refs
    ∧ (f.rand 1 = f.d1 ∧ f.rand 2 = f.d2 ∧ f.rand 3 = f.d3)
    ∧ (∀ urls : String, ∀ j : Nat, ∀ v : String,
        rand_nsqd_url urls j = Except.ok v → v ∈ (splitComma urls.data).map String.mk) := by
  refine ⟨?_, ⟨rfl, rfl, rfl⟩, ?_⟩
  · by_cases h1 : i = 1
    · simp [FleetNSQ.rand, FleetNSQ.as_refs, h1]
    · by_cases h2 : i = 2
      · simp [FleetNSQ.rand, FleetNSQ.as_refs, h1, h2]
      · simp [FleetNSQ.rand, FleetNSQ.as_refs, h1, h2]
  · intro urls j v h
    simp only [rand_nsqd_url] at h
    cases hc : sliceChoose (splitComma urls.data) j with
    | none =>
      rw [hc] at h
      exact Except.noConfusion h
    | some cs =>
      rw [hc] at h
      injection h with h2
      subst h2
      exact List.mem_map_of_mem String.mk (sliceChoose_mem hc)

/-- Witness for C8: a concrete fleet draw lands in the fleet and the
URL selector picks a piece of `"a,b"`. -/
theorem c8_random_selection_witness :
    (FleetNSQ.mk (Daemon.new "127.0.0.1" 4151 4150) (Daemon.new "127.0.0.2" 4151 4150)
        (Daemon.new "127.0.0.3" 4151 4150)).rand 2
      ∈ (FleetNSQ.mk (Daemon.new "127.0.0.1" 4151 4150) (Daemon.new "127.0.0.2" 4151 4150)
        (Daemon.new "127.0.0.3" 4151 4150)).as_refs
    ∧ "a" ∈ (splitComma "a,b".data).map String.mk :=
  ⟨(c8_random_selection (FleetNSQ.mk (Daemon.new "127.0.0.1" 4151 4150)
      (Daemon.new "127.0.0.2" 4151 4150) (Daemon.new "127.0.0.3" 4151 4150)) 2).1,
    (c8_random_selection (FleetNSQ.mk (Daemon.new "127.0.0.1" 4151 4150)
      (Daemon.new "127.0.0.2" 4151 4150) (Daemon.new "127.0.0.3" 4151 4150)) 2).2.2
      "a,b" 0 "a" rfl⟩

/-- C9: a body that fails to deserialize surfaces as the dedicated
`SerdeJSON` variant of the unified `EventfulError` (via the
`From<serde_json::Error>` impl), including the absent-body case that
defaults to the empty string; the variant is distinct from every
transport-error variant (`SQS`, `Hyperactive`) and from `NSQ`, so a
poison message is distinguishable from a connection failure. -/
theorem c9_decode_error_kind {T : Type} (S : Serde T) (j : Json) (e : String)
    (h : S.decode j = Except.error e) :
    decodeBody S (some j) = Except.error (EventfulError.SerdeJSON e)
    ∧ decodeBody S none
      = Except.error (EventfulError.SerdeJSON "EOF while parsing a value")
    ∧ (∀ s, EventfulError.SerdeJSON e ≠ EventfulError.SQS s)
    ∧ (∀ s, EventfulError.SerdeJSON e ≠ EventfulError.Hyperactive s)
    ∧ EventfulError.SerdeJSON e ≠ EventfulError.NSQ := by
  refine ⟨?_, rfl, ?_, ?_, ?_⟩
  · simp [decodeBody, h, EventfulError.fromSerdeJson]
  · intro s hs
    exact EventfulError.noConfusion hs
  · intro s hs
    exact EventfulError.noConfusion hs
  · intro hs
    exact EventfulError.noConfusion hs

/-- Witness for C9 at the concrete undecodable body `0`. -/
theorem c9_decode_error_kind_witness :
    decodeBody userSerde (some (Json.num 0))
      = Except.error
          (EventfulError.SerdeJSON "invalid type: expected struct UserClickedSomething")
    ∧ (∀ s, EventfulError.SerdeJSON "invalid type: expected struct UserClickedSomething"
        ≠ EventfulError.SQS s) :=
  ⟨(c9_decode_error_kind userSerde (Json.num 0) _ rfl).1,
    (c9_decode_error_kind userSerde (Json.num 0) _ rfl).2.2.1⟩

/-- C10: for every input string (empty, comma-free, or otherwise) and
every random draw, `rand_nsqd_url` returns a value: splitting on `","`
always yields at least one piece, so the `unwrap` on the random choice
never panics. -/
theorem c10_rand_nsqd_url_never_panics (urls : String) (j : Nat) :
    ∃ v, rand_nsqd_url urls j = Except.ok v := by
  obtain ⟨cs, hcs⟩ := sliceChoose_isSome (splitComma urls.data) j (splitComma_ne_nil _)
  exact ⟨String.mk cs, by simp [rand_nsqd_url, hcs]⟩

end Eventful
